import Mathlib

/-!
# Convai recording utilities: WAV / JSON persistence

A shallow embedding of `Source/Convai/Private/ConvaiRecordingUtils.cpp`.

* Bytes are `UInt8`; the `int32` / `int16` values of the C++ code are integers
  (`Int`) that are wrapped to their width wherever the C++ type narrows them.
* The engine (file manager, packages, object creation, asset registry, JSON
  serializer, path helpers) is outside the repository.  Its decisions are the
  fields of `Env`; its observable effects are the file system and the call
  trace held in `World`.
* Every function of the translation unit takes the world before the call and
  returns its C++ result together with the world after the call.
-/

set_option autoImplicit false
set_option linter.unusedVariables false

namespace Convai

/-! ## Machine integers and archives -/

/-- Two's-complement wrap of an integer to the range of `int32`. -/
def wrapInt32 (v : Int) : Int := (v + 2147483648) % 4294967296 - 2147483648

/-- Two's-complement wrap of an integer to the range of `int16`. -/
def wrapInt16 (v : Int) : Int := (v + 32768) % 65536 - 32768

/-- The four bytes `FArchive::operator<<(int32&)` stores (little-endian host order). -/
def int32Bytes (v : Int) : List UInt8 :=
  let n := (v % 4294967296).toNat
  [UInt8.ofNat (n % 256), UInt8.ofNat (n / 256 % 256),
   UInt8.ofNat (n / 65536 % 256), UInt8.ofNat (n / 16777216 % 256)]

/-- The two bytes `FArchive::operator<<(int16&)` stores (little-endian host order). -/
def int16Bytes (v : Int) : List UInt8 :=
  let n := (v % 65536).toNat
  [UInt8.ofNat (n % 256), UInt8.ofNat (n / 256 % 256)]

/-- The first `n` bytes of an ANSI string literal, as `Ar.Serialize((void*)"....", n)` reads them. -/
def literalBytes (s : String) (n : Nat) : List UInt8 :=
  (s.toList.map (fun c => UInt8.ofNat c.toNat)).take n

/-- A writing `FArchive`: the bytes serialized into it so far. -/
structure FArchive where
  data : List UInt8

/-- The call `Ar.Serialize(ptr, n)` on a writing archive: appends the bytes. -/
def FArchive.Serialize (Ar : FArchive) (bytes : List UInt8) : FArchive :=
  ⟨Ar.data ++ bytes⟩

/-- The call `Ar << Value` for an `int32` lvalue. -/
def FArchive.putInt32 (Ar : FArchive) (v : Int) : FArchive :=
  Ar.Serialize (int32Bytes v)

/-- The call `Ar << Value` for an `int16` lvalue. -/
def FArchive.putInt16 (Ar : FArchive) (v : Int) : FArchive :=
  Ar.Serialize (int16Bytes v)

/-- `UConvaiRecordingUtils::WriteWavHeader` (lines 133-161).  `DataSize`,
`SampleRate` and `NumChannels` are `int32` parameters; each `Ar << x` stores
as many bytes as the declared type of `x` has. -/
def WriteWavHeader (Ar : FArchive) (DataSize SampleRate NumChannels : Int) : Bool × FArchive :=
  -- RIFF chunk
  let Ar := Ar.Serialize (literalBytes "RIFF" 4)
  let ChunkSize : Int := wrapInt32 (DataSize + 36)
  let Ar := Ar.putInt32 ChunkSize
  let Ar := Ar.Serialize (literalBytes "WAVE" 4)
  -- fmt chunk
  let Ar := Ar.Serialize (literalBytes "fmt " 4)
  let Subchunk1Size : Int := 16
  let Ar := Ar.putInt32 Subchunk1Size
  let AudioFormat : Int := 1
  let Ar := Ar.putInt16 AudioFormat
  let Ar := Ar.putInt32 NumChannels
  let Ar := Ar.putInt32 SampleRate
  let ByteRate : Int := wrapInt32 (wrapInt32 (SampleRate * NumChannels) * 2)
  let Ar := Ar.putInt32 ByteRate
  let BlockAlign : Int := wrapInt16 (wrapInt32 (NumChannels * 2))
  let Ar := Ar.putInt16 BlockAlign
  let BitsPerSample : Int := 16
  let Ar := Ar.putInt16 BitsPerSample
  -- data chunk
  let Ar := Ar.Serialize (literalBytes "data" 4)
  let Ar := Ar.putInt32 DataSize
  (true, Ar)

/-! ## The engine: file system, objects, call trace -/

/-- Engine objects the code holds pointers to. -/
inductive UObjectRef where
  /-- The package `CreatePackage(assetPath)` returned. -/
  | package (assetPath : String)
  /-- The object `NewObject<T>(Package, name, flags)` returned. -/
  | object (outer : UObjectRef) (name : String)
  /-- The sound wave `UConvaiUtils::WavDataToSoundWave` returned. -/
  | soundWave (id : Nat)
  deriving DecidableEq, Repr

/-- One call into the engine, with its outcome where it has one. -/
inductive Event where
  | createFileWriter (path : String) (ok : Bool)
  | closeWriter (path : String) (bytes : List UInt8)
  | saveStringToFile (path : String) (text : String) (ok : Bool)
  | loadFileToArray (path : String) (ok : Bool)
  | deleteFile (path : String) (ok : Bool)
  | createPackage (assetPath : String) (ok : Bool)
  | newObject (outer : UObjectRef) (name : String) (ok : Bool)
  | wavDataToSoundWave (data : List UInt8) (ok : Bool)
  | markAsGarbage (obj : UObjectRef)
  | assetCreated (obj : UObjectRef)
  | markPackageDirty (obj : UObjectRef)
  deriving DecidableEq, Repr

/-- The state the translation unit acts on: the files on disk and the trace
of the engine calls made so far (oldest first). -/
structure World where
  files : String → Option (List UInt8)
  log : List Event

/-- Records an engine call in the trace. -/
def World.emit (w : World) (e : Event) : World :=
  { w with log := w.log ++ [e] }

/-- Sets (`some`) or removes (`none`) the content of one file. -/
def World.setFile (w : World) (path : String) (content : Option (List UInt8)) : World :=
  { w with files := fun p => if p = path then content else w.files p }

/-- A JSON value as `FJsonValue` holds it; `F` is the carrier of the numeric
values (`float` widened to `double` keeps its value, so both are `F`). -/
inductive FJsonValue (F : Type) where
  | number (x : F)
  | object (fields : List (String × FJsonValue F))
  | array (items : List (FJsonValue F))

/-- The field map of an `FJsonObject`, in insertion order. -/
abbrev FJsonObject (F : Type) := List (String × FJsonValue F)

/-- The method `FJsonObject::SetField`, that is `Values.Add(name, value)`: an existing key keeps
its place and gets the new value, a new key is appended. -/
def FJsonObject.SetField {F : Type} : FJsonObject F → String → FJsonValue F → FJsonObject F
  | [], name, v => [(name, v)]
  | (k, x) :: rest, name, v =>
    if k = name then (k, v) :: rest else (k, x) :: FJsonObject.SetField rest name v

/-- The method `FJsonObject::SetNumberField`. -/
def FJsonObject.SetNumberField {F : Type} (o : FJsonObject F) (name : String) (x : F) : FJsonObject F :=
  o.SetField name (.number x)

/-- The method `FJsonObject::SetObjectField`. -/
def FJsonObject.SetObjectField {F : Type} (o : FJsonObject F) (name : String) (x : FJsonObject F) :
    FJsonObject F :=
  o.SetField name (.object x)

/-- The method `FJsonObject::SetArrayField`. -/
def FJsonObject.SetArrayField {F : Type} (o : FJsonObject F) (name : String)
    (xs : List (FJsonValue F)) : FJsonObject F :=
  o.SetField name (.array xs)

/-- The decisions of the engine that the code branches on, and the engine
helpers whose results the code passes along.  None of them is defined in the
repository. -/
structure Env (F : Type) where
  /-- Whether `IFileManager::CreateFileWriter(path)` returns a writer. -/
  createFileWriterOk : String → Bool
  /-- Whether `FFileHelper::SaveStringToFile(text, path)` succeeds. -/
  saveStringToFileOk : String → Bool
  /-- Whether `FFileHelper::LoadFileToArray(out, path)` can read an existing file. -/
  loadFileOk : String → Bool
  /-- Whether `IFileManager::Delete(path)` removes an existing file. -/
  deleteFileOk : String → Bool
  /-- Whether `CreatePackage(assetPath)` returns a package. -/
  createPackageOk : String → Bool
  /-- Whether `NewObject<T>(package, name, flags)` returns an object. -/
  newObjectOk : UObjectRef → String → Bool
  /-- The result of `UConvaiUtils::WavDataToSoundWave(rawData)`: the id of the new sound wave, or null. -/
  WavDataToSoundWave : List UInt8 → Option Nat
  /-- The helper `FPaths::ChangeExtension(path, newExtension)`. -/
  ChangeExtension : String → String → String
  /-- The helper `FPaths::ProjectSavedDir()`. -/
  ProjectSavedDir : String
  /-- The helper `FPaths::Combine(parts...)`. -/
  Combine : List String → String
  /-- The text `FJsonSerializer::Serialize(root, writer)` produces. -/
  Serialize : FJsonObject F → String
  /-- The bytes `SaveStringToFile` stores for a text. -/
  encodeText : String → List UInt8
  /-- The `double` an `int32` converts to. -/
  int32ToDouble : Int → F

/-- One animation frame (`FAnimationFrame`, declared in `ConvaiDefinitions.h`):
the fields the code reads.  `BlendShapes` lists the pairs of the
`TMap<FName, float>` in iteration order, each `FName` given by its string. -/
structure FAnimationFrame (F : Type) where
  FrameIndex : Int
  BlendShapes : List (String × F)

/-- An animation sequence (`FAnimationSequence`, declared in `ConvaiDefinitions.h`): the fields
the code reads. -/
structure FAnimationSequence (F : Type) where
  Duration : F
  FrameRate : F
  AnimationFrames : List (FAnimationFrame F)

/-- The asset class of `ConvaiFaceAnimationAsset.h`, with the identity of the engine object. -/
structure UConvaiFaceAnimationAsset (F : Type) where
  self : UObjectRef
  FaceSequence : FAnimationSequence F
  Duration : F
  FrameRate : F
  NumFrames : Int

/-! ## Engine calls -/

/-- The call `IFileManager::Get().CreateFileWriter(path)`: on success the file exists and is empty. -/
def CreateFileWriter {F : Type} (env : Env F) (path : String) (w : World) : Option FArchive × World :=
  if env.createFileWriterOk path then
    (some ⟨[]⟩, (w.setFile path (some [])).emit (.createFileWriter path true))
  else
    (none, w.emit (.createFileWriter path false))

/-- The statement `delete FileAr`: the archive is flushed to its file and closed. -/
def DeleteArchive (path : String) (Ar : FArchive) (w : World) : World :=
  (w.setFile path (some Ar.data)).emit (.closeWriter path Ar.data)

/-- The call `FFileHelper::SaveStringToFile(text, path)`. -/
def SaveStringToFile {F : Type} (env : Env F) (text : String) (path : String) (w : World) :
    Bool × World :=
  if env.saveStringToFileOk path then
    (true, (w.setFile path (some (env.encodeText text))).emit (.saveStringToFile path text true))
  else
    (false, w.emit (.saveStringToFile path text false))

/-- The call `FFileHelper::LoadFileToArray(RawData, path)`: `none` is the result `false`. -/
def LoadFileToArray {F : Type} (env : Env F) (path : String) (w : World) :
    Option (List UInt8) × World :=
  match (if env.loadFileOk path then w.files path else none) with
  | some bytes => (some bytes, w.emit (.loadFileToArray path true))
  | none => (none, w.emit (.loadFileToArray path false))

/-- The call `IFileManager::Get().Delete(path)`; the code ignores its result. -/
def DeleteFile {F : Type} (env : Env F) (path : String) (w : World) : World :=
  if env.deleteFileOk path then (w.setFile path none).emit (.deleteFile path true)
  else w.emit (.deleteFile path false)

/-- The call `CreatePackage(assetPath)`. -/
def CreatePackage {F : Type} (env : Env F) (assetPath : String) (w : World) :
    Option UObjectRef × World :=
  if env.createPackageOk assetPath then
    (some (.package assetPath), w.emit (.createPackage assetPath true))
  else
    (none, w.emit (.createPackage assetPath false))

/-- The call `NewObject<T>(Package, name, RF_Public | RF_Standalone)`. -/
def NewObject {F : Type} (env : Env F) (Package : UObjectRef) (name : String) (w : World) :
    Option UObjectRef × World :=
  if env.newObjectOk Package name then
    (some (.object Package name), w.emit (.newObject Package name true))
  else
    (none, w.emit (.newObject Package name false))

/-- The call `UConvaiUtils::WavDataToSoundWave(RawData)`. -/
def WavDataToSoundWave {F : Type} (env : Env F) (RawData : List UInt8) (w : World) :
    Option UObjectRef × World :=
  match env.WavDataToSoundWave RawData with
  | some id => (some (.soundWave id), w.emit (.wavDataToSoundWave RawData true))
  | none => (none, w.emit (.wavDataToSoundWave RawData false))

/-! ## The functions of `UConvaiRecordingUtils` -/

/-- `UConvaiRecordingUtils::SaveAudioToWavFile` (lines 15-47). -/
def SaveAudioToWavFile {F : Type} (env : Env F) (PCMData : List UInt8) (FilePath : String)
    (SampleRate NumChannels : Int) (w : World) : Bool × World :=
  if PCMData.length = 0 then
    (false, w)
  else
    -- Create the file
    match CreateFileWriter env FilePath w with
    | (none, w) => (false, w)
    | (some FileAr, w) =>
      -- Write WAV header
      match WriteWavHeader FileAr (PCMData.length : Int) SampleRate NumChannels with
      | (false, FileAr) => (false, DeleteArchive FilePath FileAr w)
      | (true, FileAr) =>
        -- Write PCM data
        let FileAr := FileAr.Serialize PCMData
        (true, DeleteArchive FilePath FileAr w)

/-- The object `BlendShapesObject` of one frame (lines 73-77). -/
def BlendShapesObject {F : Type} (BlendShapes : List (String × F)) : FJsonObject F :=
  BlendShapes.foldl (fun o Pair => o.SetNumberField Pair.1 Pair.2) []

/-- The object `FrameObject` of one frame (lines 69-78). -/
def FrameObject {F : Type} (env : Env F) (Frame : FAnimationFrame F) : FJsonObject F :=
  let FrameObject : FJsonObject F := []
  let FrameObject := FrameObject.SetNumberField "FrameIndex" (env.int32ToDouble Frame.FrameIndex)
  FrameObject.SetObjectField "BlendShapes" (BlendShapesObject Frame.BlendShapes)

/-- The array `FramesArray` after the loop over the frames (lines 66-81). -/
def FramesArray {F : Type} (env : Env F) (Frames : List (FAnimationFrame F)) :
    List (FJsonValue F) :=
  Frames.foldl (fun arr Frame => arr ++ [FJsonValue.object (FrameObject env Frame)]) []

/-- The object `RootObject` that `SaveFaceDataToJsonFile` serializes (lines 59-82). -/
def RootObject {F : Type} (env : Env F) (FaceSequence : FAnimationSequence F) : FJsonObject F :=
  let RootObject : FJsonObject F := []
  -- Add sequence metadata
  let RootObject := RootObject.SetNumberField "Duration" FaceSequence.Duration
  let RootObject := RootObject.SetNumberField "FrameRate" FaceSequence.FrameRate
  -- Create frames array
  RootObject.SetArrayField "Frames" (FramesArray env FaceSequence.AnimationFrames)

/-- `UConvaiRecordingUtils::SaveFaceDataToJsonFile` (lines 49-100). -/
def SaveFaceDataToJsonFile {F : Type} (env : Env F) (FaceSequence : FAnimationSequence F)
    (FilePath : String) (w : World) : Bool × World :=
  if FaceSequence.AnimationFrames.length = 0 then
    (false, w)
  else
    -- Convert to string
    let OutputString := env.Serialize (RootObject env FaceSequence)
    -- Save to file
    SaveStringToFile env OutputString FilePath w

/-- `UConvaiRecordingUtils::SaveAudioAndFaceData` (lines 102-131). -/
def SaveAudioAndFaceData {F : Type} (env : Env F) (PCMData : List UInt8)
    (FaceSequence : FAnimationSequence F) (BaseFilePath : String)
    (SampleRate NumChannels : Int) (w : World) : Bool × World :=
  -- Save audio
  let AudioFilePath := env.ChangeExtension BaseFilePath "wav"
  match SaveAudioToWavFile env PCMData AudioFilePath SampleRate NumChannels w with
  | (false, w) => (false, w)
  | (true, w) =>
    -- Save face data
    let FaceDataFilePath := env.ChangeExtension BaseFilePath "json"
    match SaveFaceDataToJsonFile env FaceSequence FaceDataFilePath w with
    | (bSuccess, w) => (bSuccess, w)

/-- The path of the temporary WAV file of `SaveAudioAsSoundWaveAsset` (line 174). -/
def TempFilePath {F : Type} (env : Env F) (AssetName : String) : String :=
  env.Combine [env.ProjectSavedDir, "Temp", AssetName ++ "_temp.wav"]

/-- `UConvaiRecordingUtils::SaveAudioAsSoundWaveAsset` (lines 163-231); `none` is `nullptr`. -/
def SaveAudioAsSoundWaveAsset {F : Type} (env : Env F) (PCMData : List UInt8) (AssetName : String)
    (SampleRate NumChannels : Int) (w : World) : Option UObjectRef × World :=
  if PCMData.length = 0 then
    (none, w)
  else
    -- Create a temporary WAV file
    match SaveAudioToWavFile env PCMData (TempFilePath env AssetName) SampleRate NumChannels w with
    | (false, w) => (none, w)
    | (true, w) =>
      -- Create the asset
      let PackagePath := "/Game/Convai/Recordings"
      let AssetPath := env.Combine [PackagePath, AssetName]
      match CreatePackage env AssetPath w with
      | (none, w) => (none, w)
      | (some Package, w) =>
        -- Create the SoundWave asset
        match NewObject env Package AssetName w with
        | (none, w) => (none, w.emit (.markAsGarbage Package))
        | (some _, w) =>
          -- Load the WAV data into the SoundWave
          match LoadFileToArray env (TempFilePath env AssetName) w with
          | (none, w) => (none, w.emit (.markAsGarbage Package))
          | (some RawData, w) =>
            -- Convert WAV data to SoundWave
            match WavDataToSoundWave env RawData w with
            | (none, w) => (none, w.emit (.markAsGarbage Package))
            | (some SoundWave, w) =>
              -- Register the asset
              let w := w.emit (.assetCreated SoundWave)
              let w := w.emit (.markPackageDirty SoundWave)
              -- Clean up temporary file
              let w := DeleteFile env (TempFilePath env AssetName) w
              (some SoundWave, w)

/-- `UConvaiRecordingUtils::SaveFaceDataAsAsset` (lines 233-276); `none` is `nullptr`. -/
def SaveFaceDataAsAsset {F : Type} (env : Env F) (FaceSequence : FAnimationSequence F)
    (AssetName : String) (w : World) : Option (UConvaiFaceAnimationAsset F) × World :=
  if FaceSequence.AnimationFrames.length = 0 then
    (none, w)
  else
    -- Create the asset
    let PackagePath := "/Game/Convai/Recordings"
    let AssetPath := env.Combine [PackagePath, AssetName]
    match CreatePackage env AssetPath w with
    | (none, w) => (none, w)
    | (some Package, w) =>
      -- Create the face animation asset
      match NewObject env Package AssetName w with
      | (none, w) => (none, w.emit (.markAsGarbage Package))
      | (some obj, w) =>
        -- Set the face sequence data
        let FaceAnimation : UConvaiFaceAnimationAsset F :=
          { self := obj
            FaceSequence := FaceSequence
            Duration := FaceSequence.Duration
            FrameRate := FaceSequence.FrameRate
            NumFrames := (FaceSequence.AnimationFrames.length : Int) }
        -- Register the asset
        let w := w.emit (.assetCreated obj)
        let w := w.emit (.markPackageDirty obj)
        (some FaceAnimation, w)

/-- What `SaveAudioAndFaceDataAsAssets` leaves behind: its result, the two
reference parameters on return, and the world. -/
structure AssetsOutcome (F : Type) where
  result : Bool
  OutSoundWave : Option UObjectRef
  OutFaceAnimation : Option (UConvaiFaceAnimationAsset F)
  world : World

/-- `UConvaiRecordingUtils::SaveAudioAndFaceDataAsAssets` (lines 278-306).
`OutSoundWave` and `OutFaceAnimation` are the values the caller's variables
hold on entry. -/
def SaveAudioAndFaceDataAsAssets {F : Type} (env : Env F) (PCMData : List UInt8)
    (FaceSequence : FAnimationSequence F) (BaseAssetName : String)
    (SampleRate NumChannels : Int) (OutSoundWave : Option UObjectRef)
    (OutFaceAnimation : Option (UConvaiFaceAnimationAsset F)) (w : World) : AssetsOutcome F :=
  -- Save audio as SoundWave asset
  match SaveAudioAsSoundWaveAsset env PCMData (BaseAssetName ++ "_Audio") SampleRate NumChannels w with
  | (none, w) => ⟨false, none, OutFaceAnimation, w⟩
  | (some SoundWave, w) =>
    -- Save face data as face animation asset
    match SaveFaceDataAsAsset env FaceSequence (BaseAssetName ++ "_Face") w with
    | (none, w) =>
      -- Clean up the SoundWave asset if face animation creation fails
      ⟨false, none, none, w.emit (.markAsGarbage SoundWave)⟩
    | (some FaceAnimation, w) => ⟨true, some SoundWave, some FaceAnimation, w⟩

/-! ## The canonical WAV container, as the specification words it -/

/-- A four-character chunk tag. -/
def tag (s : String) : List UInt8 :=
  s.toList.map (fun c => UInt8.ofNat c.toNat)

/-- The 32-bit little-endian field holding `n`. -/
def LE32 (n : Nat) : List UInt8 :=
  [UInt8.ofNat (n % 256), UInt8.ofNat (n / 256 % 256),
   UInt8.ofNat (n / 65536 % 256), UInt8.ofNat (n / 16777216 % 256)]

/-- The 16-bit little-endian field holding `n`. -/
def LE16 (n : Nat) : List UInt8 :=
  [UInt8.ofNat (n % 256), UInt8.ofNat (n / 256 % 256)]

/-- The canonical WAV container of the specification (section 4.1): a 44-byte header, then the payload. -/
def canonicalWav (pcm : List UInt8) (sampleRate channels : Nat) : List UInt8 :=
  tag "RIFF" ++ LE32 (pcm.length + 36) ++ tag "WAVE" ++
  tag "fmt " ++ LE32 16 ++ LE16 1 ++ LE16 channels ++ LE32 sampleRate ++
  LE32 (sampleRate * channels * 2) ++ LE16 (channels * 2) ++ LE16 16 ++
  tag "data" ++ LE32 pcm.length ++ pcm

/-- The 16-bit little-endian value at an offset (absent bytes read as 0). -/
def readLE16 (bs : List UInt8) (off : Nat) : Nat :=
  (bs.getD off 0).toNat + 256 * (bs.getD (off + 1) 0).toNat

/-- The 32-bit little-endian value at an offset (absent bytes read as 0). -/
def readLE32 (bs : List UInt8) (off : Nat) : Nat :=
  (bs.getD off 0).toNat + 256 * (bs.getD (off + 1) 0).toNat +
  65536 * (bs.getD (off + 2) 0).toNat + 16777216 * (bs.getD (off + 3) 0).toNat

/-- The canonical WAV decoder: channel count at offset 22, sample rate at
offset 24, data size at offset 40, payload from offset 44.  Returns
`(pcm, sampleRate, channels)`. -/
def decodeWav (bs : List UInt8) : List UInt8 × Nat × Nat :=
  let channels := readLE16 bs 22
  let sampleRate := readLE32 bs 24
  let dataSize := readLE32 bs 40
  ((bs.drop 44).take dataSize, sampleRate, channels)

/-! ## Concrete inputs -/

/-- The helper `FPaths::ChangeExtension` on a path without directory part: the text from the last
dot on is replaced by `.ext`; a path without a dot is returned as is. -/
def sampleChangeExtension (path ext : String) : String :=
  if '.' ∈ path.toList then
    String.mk ((path.toList.reverse.dropWhile (fun c => c != '.')).reverse ++ ext.toList)
  else path

/-- An engine in which every call succeeds; numbers are rationals. -/
def sampleEnv : Env ℚ where
  createFileWriterOk := fun _ => true
  saveStringToFileOk := fun _ => true
  loadFileOk := fun _ => true
  deleteFileOk := fun _ => true
  createPackageOk := fun _ => true
  newObjectOk := fun _ _ => true
  WavDataToSoundWave := fun _ => some 0
  ChangeExtension := sampleChangeExtension
  ProjectSavedDir := "Saved"
  Combine := fun parts => String.intercalate "/" parts
  Serialize := fun _ => "<json>"
  encodeText := fun s => s.toList.map (fun c => UInt8.ofNat c.toNat)
  int32ToDouble := fun i => (i : ℚ)

/-- A world with no files and an empty trace. -/
def emptyWorld : World := ⟨fun _ => none, []⟩

/-- The PCM buffer of the specification scenario: two 16-bit samples. -/
def samplePCM : List UInt8 := [0x01, 0x00, 0x02, 0x00]

/-- The face sequence of the specification scenario: one frame, `JawOpen` at 0.5. -/
def sampleSequence : FAnimationSequence ℚ :=
  { Duration := 1, FrameRate := 30,
    AnimationFrames := [{ FrameIndex := 0, BlendShapes := [("JawOpen", 1 / 2)] }] }

/-- A face sequence without frames. -/
def emptySequence : FAnimationSequence ℚ :=
  { Duration := 0, FrameRate := 30, AnimationFrames := [] }

/-- An engine like `sampleEnv` in which `CreatePackage` returns null. -/
def packageFailEnv : Env ℚ :=
  { sampleEnv with createPackageOk := fun _ => false }

/-- An engine like `sampleEnv` in which no file writer can be created. -/
def writerFailEnv : Env ℚ :=
  { sampleEnv with createFileWriterOk := fun _ => false }

/-- An engine like `sampleEnv` in which `SaveStringToFile` fails. -/
def jsonFailEnv : Env ℚ :=
  { sampleEnv with saveStringToFileOk := fun _ => false }

/-! ## Trace properties -/

/-- The engine calls that commit a face-data file or register an asset. -/
def Event.commitsFaceOrAsset : Event → Bool
  | .saveStringToFile _ _ _ => true
  | .assetCreated _ => true
  | .markPackageDirty _ => true
  | _ => false

/-- Between `w` and `w'` the trace only grew, and by no call that commits a
face-data file or registers an asset. -/
def NoCommitSince (w w' : World) : Prop :=
  ∃ added, w'.log = w.log ++ added ∧ ∀ e ∈ added, Event.commitsFaceOrAsset e = false

/-! ## Lemmas on the WAV writer -/

theorem wrapInt32_emod (v : Int) : wrapInt32 v % 4294967296 = v % 4294967296 := by
  unfold wrapInt32; omega

theorem int32Bytes_wrapInt32 (v : Int) : int32Bytes (wrapInt32 v) = int32Bytes v := by
  simp only [int32Bytes, wrapInt32_emod]

theorem int32Bytes_natCast (n : Nat) : int32Bytes (n : Int) = LE32 n := by
  have h : (((n : Int) % 4294967296).toNat) = n % 4294967296 := by omega
  simp only [int32Bytes, LE32, h]
  have h1 : n % 4294967296 % 256 = n % 256 := by omega
  have h2 : n % 4294967296 / 256 % 256 = n / 256 % 256 := by omega
  have h3 : n % 4294967296 / 65536 % 256 = n / 65536 % 256 := by omega
  have h4 : n % 4294967296 / 16777216 % 256 = n / 16777216 % 256 := by omega
  rw [h1, h2, h3, h4]

theorem literalBytes_RIFF : literalBytes "RIFF" 4 = tag "RIFF" := by decide
theorem literalBytes_WAVE : literalBytes "WAVE" 4 = tag "WAVE" := by decide
theorem literalBytes_fmt : literalBytes "fmt " 4 = tag "fmt " := by decide
theorem literalBytes_data : literalBytes "data" 4 = tag "data" := by decide

theorem WriteWavHeader_data (Ar : FArchive) (DataSize SampleRate NumChannels : Int) :
    WriteWavHeader Ar DataSize SampleRate NumChannels =
      (true, ⟨Ar.data ++ (tag "RIFF" ++ int32Bytes (DataSize + 36) ++ tag "WAVE" ++
        (tag "fmt " ++ int32Bytes 16 ++ int16Bytes 1 ++ int32Bytes NumChannels ++
          int32Bytes SampleRate ++ int32Bytes (wrapInt32 (wrapInt32 (SampleRate * NumChannels) * 2)) ++
          int16Bytes (wrapInt16 (wrapInt32 (NumChannels * 2))) ++ int16Bytes 16) ++
        tag "data" ++ int32Bytes DataSize)⟩) := by
  simp only [WriteWavHeader, FArchive.Serialize, FArchive.putInt32, FArchive.putInt16,
    literalBytes_RIFF, literalBytes_WAVE, literalBytes_fmt, literalBytes_data,
    int32Bytes_wrapInt32, List.append_assoc]

theorem SaveAudioToWavFile_nil {F : Type} (env : Env F) (path : String) (sr ch : Int) (w : World) :
    SaveAudioToWavFile env [] path sr ch w = (false, w) := by
  simp [SaveAudioToWavFile]

theorem SaveAudioToWavFile_writer_fails {F : Type} (env : Env F) (pcm : List UInt8) (path : String)
    (sr ch : Int) (w : World) (hne : pcm ≠ []) (hw : env.createFileWriterOk path = false) :
    SaveAudioToWavFile env pcm path sr ch w = (false, w.emit (.createFileWriter path false)) := by
  simp [SaveAudioToWavFile, CreateFileWriter, hne, hw]

theorem SaveAudioToWavFile_writes {F : Type} (env : Env F) (pcm : List UInt8) (path : String)
    (sr ch : Int) (w : World) (hne : pcm ≠ []) (hw : env.createFileWriterOk path = true) :
    SaveAudioToWavFile env pcm path sr ch w =
      (true, DeleteArchive path ⟨(WriteWavHeader ⟨[]⟩ (pcm.length : Int) sr ch).2.data ++ pcm⟩
        ((w.setFile path (some [])).emit (.createFileWriter path true))) := by
  simp [SaveAudioToWavFile, CreateFileWriter, hne, hw, WriteWavHeader_data, FArchive.Serialize]

/-! ## Lemmas on the JSON document -/

theorem SetField_new {F : Type} (o : FJsonObject F) (name : String) (v : FJsonValue F)
    (h : name ∉ o.map Prod.fst) : FJsonObject.SetField o name v = o ++ [(name, v)] := by
  induction o with
  | nil => rfl
  | cons p rest ih =>
    obtain ⟨k, x⟩ := p
    simp only [List.map_cons, List.mem_cons, not_or] at h
    have hk : ¬ k = name := fun e => h.1 e.symm
    simp only [FJsonObject.SetField, hk, if_false, List.cons_append, ih h.2]

theorem foldl_SetNumberField {F : Type} (pairs : List (String × F)) (acc : FJsonObject F)
    (hnd : (acc.map Prod.fst ++ pairs.map Prod.fst).Nodup) :
    pairs.foldl (fun o Pair => FJsonObject.SetNumberField o Pair.1 Pair.2) acc =
      acc ++ pairs.map (fun p => (p.1, FJsonValue.number p.2)) := by
  induction pairs generalizing acc with
  | nil => simp
  | cons p rest ih =>
    have hp : p.1 ∉ acc.map Prod.fst := by
      intro hmem
      have := List.nodup_append.mp hnd
      exact this.2.2 hmem (by simp)
    simp only [List.foldl_cons, FJsonObject.SetNumberField, SetField_new acc p.1 _ hp]
    have hnd2 : ((acc ++ [(p.1, FJsonValue.number p.2)]).map Prod.fst ++ rest.map Prod.fst).Nodup := by
      simpa [List.append_assoc] using hnd
    have := ih (acc ++ [(p.1, FJsonValue.number p.2)]) hnd2
    simp only [FJsonObject.SetNumberField] at this
    rw [this]
    simp

theorem BlendShapesObject_eq {F : Type} (pairs : List (String × F))
    (hnd : (pairs.map Prod.fst).Nodup) :
    BlendShapesObject pairs = pairs.map (fun p => (p.1, FJsonValue.number p.2)) := by
  have := foldl_SetNumberField pairs [] (by simpa using hnd)
  simpa [BlendShapesObject] using this

theorem FramesArray_foldl {F : Type} (g : FAnimationFrame F → FJsonValue F)
    (Frames : List (FAnimationFrame F)) (acc : List (FJsonValue F)) :
    Frames.foldl (fun arr Frame => arr ++ [g Frame]) acc = acc ++ Frames.map g := by
  induction Frames generalizing acc with
  | nil => simp
  | cons f rest ih => simp [ih]

theorem FramesArray_eq_map {F : Type} (env : Env F) (Frames : List (FAnimationFrame F)) :
    FramesArray env Frames = Frames.map (fun f => FJsonValue.object (FrameObject env f)) := by
  simpa [FramesArray] using FramesArray_foldl (fun f => FJsonValue.object (FrameObject env f)) Frames []

theorem FrameObject_eq {F : Type} (env : Env F) (f : FAnimationFrame F)
    (hnd : (f.BlendShapes.map Prod.fst).Nodup) :
    FrameObject env f =
      [("FrameIndex", FJsonValue.number (env.int32ToDouble f.FrameIndex)),
       ("BlendShapes", FJsonValue.object (f.BlendShapes.map (fun p => (p.1, FJsonValue.number p.2))))] := by
  have h : ¬ ("FrameIndex" = "BlendShapes") := by decide
  simp only [FrameObject, FJsonObject.SetNumberField, FJsonObject.SetObjectField,
    FJsonObject.SetField, h, if_false, BlendShapesObject_eq _ hnd]

theorem RootObject_eq {F : Type} (env : Env F) (seq : FAnimationSequence F) :
    RootObject env seq =
      [("Duration", FJsonValue.number seq.Duration), ("FrameRate", FJsonValue.number seq.FrameRate),
       ("Frames", FJsonValue.array (seq.AnimationFrames.map
          (fun f => FJsonValue.object (FrameObject env f))))] := by
  have h1 : ¬ ("Duration" = "FrameRate") := by decide
  have h2 : ¬ ("Duration" = "Frames") := by decide
  have h3 : ¬ ("FrameRate" = "Frames") := by decide
  simp only [RootObject, FJsonObject.SetNumberField, FJsonObject.SetArrayField,
    FJsonObject.SetField, h1, h2, h3, if_false, FramesArray_eq_map]

/-! ## Lemmas on the orchestrators -/

theorem NoCommitSince.refl (w : World) : NoCommitSince w w :=
  ⟨[], by simp, by simp⟩

theorem NoCommitSince.trans {w w1 w2 : World} (h1 : NoCommitSince w w1)
    (h2 : NoCommitSince w1 w2) : NoCommitSince w w2 := by
  obtain ⟨a, ha, hall⟩ := h1
  obtain ⟨b, hb, hbll⟩ := h2
  refine ⟨a ++ b, by rw [hb, ha, List.append_assoc], ?_⟩
  intro e he
  rcases List.mem_append.mp he with h | h
  · exact hall e h
  · exact hbll e h

theorem NoCommitSince.emit (w : World) (e : Event) (he : Event.commitsFaceOrAsset e = false) :
    NoCommitSince w (w.emit e) :=
  ⟨[e], rfl, by simpa using he⟩

theorem NoCommitSince.setFile (w : World) (path : String) (c : Option (List UInt8)) :
    NoCommitSince w (w.setFile path c) :=
  ⟨[], by simp [World.setFile], by simp⟩

theorem NoCommitSince.of_eq {α : Type} {w w' : World} {r : α × World} {a : α}
    (h : NoCommitSince w r.2) (heq : r = (a, w')) : NoCommitSince w w' := by
  subst heq
  exact h

theorem SaveAudioToWavFile_fails_iff {F : Type} (env : Env F) (pcm : List UInt8) (path : String)
    (sr ch : Int) (w : World) :
    (SaveAudioToWavFile env pcm path sr ch w).1 = false ↔
      (pcm = [] ∨ env.createFileWriterOk path = false) := by
  by_cases hne : pcm = []
  · subst hne
    simp [SaveAudioToWavFile_nil]
  · cases hw : env.createFileWriterOk path
    · simp [SaveAudioToWavFile_writer_fails env pcm path sr ch w hne hw]
    · simp [SaveAudioToWavFile_writes env pcm path sr ch w hne hw, hne]

theorem SaveAudioToWavFile_trace {F : Type} (env : Env F) (pcm : List UInt8) (path : String)
    (sr ch : Int) (w : World) :
    NoCommitSince w (SaveAudioToWavFile env pcm path sr ch w).2 := by
  by_cases hne : pcm = []
  · subst hne
    rw [SaveAudioToWavFile_nil]
    exact NoCommitSince.refl w
  · cases hw : env.createFileWriterOk path
    · rw [SaveAudioToWavFile_writer_fails env pcm path sr ch w hne hw]
      exact NoCommitSince.emit w _ rfl
    · rw [SaveAudioToWavFile_writes env pcm path sr ch w hne hw]
      unfold DeleteArchive
      exact ((NoCommitSince.setFile w _ _).trans
          (NoCommitSince.emit _ (Event.createFileWriter path true) rfl)).trans
        ((NoCommitSince.setFile _ _ _).trans (NoCommitSince.emit _ (Event.closeWriter _ _) rfl))

theorem CreatePackage_trace {F : Type} (env : Env F) (p : String) (w : World) :
    NoCommitSince w (CreatePackage env p w).2 := by
  unfold CreatePackage
  split <;> exact NoCommitSince.emit w _ rfl

theorem NewObject_trace {F : Type} (env : Env F) (o : UObjectRef) (n : String) (w : World) :
    NoCommitSince w (NewObject env o n w).2 := by
  unfold NewObject
  split <;> exact NoCommitSince.emit w _ rfl

theorem LoadFileToArray_trace {F : Type} (env : Env F) (p : String) (w : World) :
    NoCommitSince w (LoadFileToArray env p w).2 := by
  unfold LoadFileToArray
  split <;> exact NoCommitSince.emit w _ rfl

theorem WavDataToSoundWave_trace {F : Type} (env : Env F) (d : List UInt8) (w : World) :
    NoCommitSince w (WavDataToSoundWave env d w).2 := by
  unfold WavDataToSoundWave
  split <;> exact NoCommitSince.emit w _ rfl

theorem SaveAudioAsSoundWaveAsset_none_trace {F : Type} (env : Env F) (pcm : List UInt8)
    (name : String) (sr ch : Int) (w : World) :
    (SaveAudioAsSoundWaveAsset env pcm name sr ch w).1 = none →
      NoCommitSince w (SaveAudioAsSoundWaveAsset env pcm name sr ch w).2 := by
  unfold SaveAudioAsSoundWaveAsset
  split
  · intro _
    exact NoCommitSince.refl w
  · split
    · rename_i w1 hs
      intro _
      exact (SaveAudioToWavFile_trace env pcm _ sr ch w).of_eq hs
    · rename_i w1 hs
      have t1 : NoCommitSince w w1 := (SaveAudioToWavFile_trace env pcm _ sr ch w).of_eq hs
      dsimp only
      split
      · rename_i w2 hp
        intro _
        exact t1.trans ((CreatePackage_trace env _ w1).of_eq hp)
      · rename_i Package w2 hp
        have t2 : NoCommitSince w w2 := t1.trans ((CreatePackage_trace env _ w1).of_eq hp)
        split
        · rename_i w3 ho
          intro _
          exact (t2.trans ((NewObject_trace env _ _ w2).of_eq ho)).trans
            (NoCommitSince.emit _ _ rfl)
        · rename_i obj w3 ho
          have t3 : NoCommitSince w w3 := t2.trans ((NewObject_trace env _ _ w2).of_eq ho)
          split
          · rename_i w4 hl
            intro _
            exact (t3.trans ((LoadFileToArray_trace env _ w3).of_eq hl)).trans
              (NoCommitSince.emit _ _ rfl)
          · rename_i RawData w4 hl
            have t4 : NoCommitSince w w4 := t3.trans ((LoadFileToArray_trace env _ w3).of_eq hl)
            split
            · rename_i w5 hc
              intro _
              exact (t4.trans ((WavDataToSoundWave_trace env _ w4).of_eq hc)).trans
                (NoCommitSince.emit _ _ rfl)
            · intro h
              simp at h

/-! ## Claims on the WAV container -/

/-- C1: on the scenario input (PCM `01 00 02 00`, 16000 Hz, 1 channel) the
call succeeds and the file holds 50 bytes: `Ar << NumChannels` stores the
`int32` parameter as four bytes, so the header has 46 bytes, not 44, and the
file differs from the canonical container, whose channel field has two. -/
theorem C1_channel_count_stored_as_four_bytes :
    (SaveAudioToWavFile sampleEnv samplePCM "rec.wav" 16000 1 emptyWorld).1 = true ∧
    (SaveAudioToWavFile sampleEnv samplePCM "rec.wav" 16000 1 emptyWorld).2.files "rec.wav" =
      some (tag "RIFF" ++ LE32 40 ++ tag "WAVE" ++ tag "fmt " ++ LE32 16 ++ LE16 1 ++
        LE32 1 ++ LE32 16000 ++ LE32 32000 ++ LE16 2 ++ LE16 16 ++
        tag "data" ++ LE32 4 ++ samplePCM) ∧
    (SaveAudioToWavFile sampleEnv samplePCM "rec.wav" 16000 1 emptyWorld).2.files "rec.wav" ≠
      some (canonicalWav samplePCM 16000 1) ∧
    (WriteWavHeader ⟨[]⟩ 4 16000 1).2.data.length = 46 ∧
    (canonicalWav samplePCM 16000 1).length = 44 + 4 := by
  decide

/-- C2: on the scenario input the canonical decoder does not give the input
back from the file written: it reads sample rate 1048576000 and a six-byte
payload, because every field after the channel count sits two bytes late.
The same decoder gives the input back from the canonical container. -/
theorem C2_round_trip_fails_on_scenario :
    ((SaveAudioToWavFile sampleEnv samplePCM "rec.wav" 16000 1 emptyWorld).2.files "rec.wav").map
        decodeWav = some ([0, 0, 1, 0, 2, 0], 1048576000, 1) ∧
    ((SaveAudioToWavFile sampleEnv samplePCM "rec.wav" 16000 1 emptyWorld).2.files "rec.wav").map
        decodeWav ≠ some (samplePCM, 16000, 1) ∧
    decodeWav (canonicalWav samplePCM 16000 1) = (samplePCM, 16000, 1) := by
  decide

/-- C3: for a non-empty PCM buffer and a writer that is created, the call
succeeds and the file starts with `"RIFF"`, `LE32(len(pcm)+36)`, `"WAVE"` and
ends with `"data"`, `LE32(len(pcm))` and the PCM bytes unchanged, nothing
after them. -/
theorem C3_riff_start_and_data_chunk {F : Type} (env : Env F) (pcm : List UInt8) (path : String)
    (sr ch : Int) (w : World) (hne : pcm ≠ []) (hw : env.createFileWriterOk path = true) :
    (SaveAudioToWavFile env pcm path sr ch w).1 = true ∧
    ∃ fmtChunk : List UInt8,
      (SaveAudioToWavFile env pcm path sr ch w).2.files path =
        some (tag "RIFF" ++ LE32 (pcm.length + 36) ++ tag "WAVE" ++ fmtChunk ++
          tag "data" ++ LE32 pcm.length ++ pcm) := by
  rw [SaveAudioToWavFile_writes env pcm path sr ch w hne hw]
  refine ⟨rfl, ?_⟩
  have h36 : int32Bytes ((pcm.length : Int) + 36) = LE32 (pcm.length + 36) := by
    rw [← int32Bytes_natCast]; rfl
  refine ⟨tag "fmt " ++ int32Bytes 16 ++ int16Bytes 1 ++ int32Bytes ch ++ int32Bytes sr ++
    int32Bytes (wrapInt32 (wrapInt32 (sr * ch) * 2)) ++
    int16Bytes (wrapInt16 (wrapInt32 (ch * 2))) ++ int16Bytes 16, ?_⟩
  simp only [DeleteArchive, World.emit, World.setFile, WriteWavHeader_data, if_true,
    List.nil_append, h36, int32Bytes_natCast, List.append_assoc]

/-- C3 at the scenario input. -/
theorem C3_riff_start_and_data_chunk_witness :
    (SaveAudioToWavFile sampleEnv samplePCM "rec.wav" 16000 1 emptyWorld).1 = true ∧
    ∃ fmtChunk : List UInt8,
      (SaveAudioToWavFile sampleEnv samplePCM "rec.wav" 16000 1 emptyWorld).2.files "rec.wav" =
        some (tag "RIFF" ++ LE32 (samplePCM.length + 36) ++ tag "WAVE" ++ fmtChunk ++
          tag "data" ++ LE32 samplePCM.length ++ samplePCM) :=
  C3_riff_start_and_data_chunk sampleEnv samplePCM "rec.wav" 16000 1 emptyWorld
    (by decide) (by decide)

/-! ## Claims on parameter and input checks -/

/-- C5, as stated, fails: with `channels = 0` and a non-empty buffer the call
returns true and writes a 50-byte file whose channel, byte-rate and
block-align fields are zero. -/
theorem C5_zero_channels_accepted :
    (SaveAudioToWavFile sampleEnv samplePCM "rec.wav" 16000 0 emptyWorld).1 = true ∧
    (SaveAudioToWavFile sampleEnv samplePCM "rec.wav" 16000 0 emptyWorld).2.files "rec.wav" =
      some (tag "RIFF" ++ LE32 40 ++ tag "WAVE" ++ tag "fmt " ++ LE32 16 ++ LE16 1 ++
        LE32 0 ++ LE32 16000 ++ LE32 0 ++ LE16 0 ++ LE16 16 ++
        tag "data" ++ LE32 4 ++ samplePCM) := by
  decide

/-- C5, amended: `SaveAudioToWavFile` does not look at the sign of
`SampleRate` or `NumChannels`.  For all values of both, it fails exactly when
the buffer is empty or the writer cannot be created, and then no file changes
and nothing is written (the trace gains at most the failed
`CreateFileWriter`); otherwise it returns true and the file holds the output
of `WriteWavHeader` for those values followed by the PCM bytes. -/
theorem C5_parameters_not_validated {F : Type} (env : Env F) (pcm : List UInt8) (path : String)
    (sr ch : Int) (w : World) :
    ((SaveAudioToWavFile env pcm path sr ch w).1 = false ↔
      (pcm = [] ∨ env.createFileWriterOk path = false)) ∧
    ((SaveAudioToWavFile env pcm path sr ch w).1 = false →
      (SaveAudioToWavFile env pcm path sr ch w).2.files = w.files ∧
      ((SaveAudioToWavFile env pcm path sr ch w).2.log = w.log ∨
        (SaveAudioToWavFile env pcm path sr ch w).2.log =
          w.log ++ [Event.createFileWriter path false])) ∧
    ((SaveAudioToWavFile env pcm path sr ch w).1 = true →
      (SaveAudioToWavFile env pcm path sr ch w).2.files path =
        some ((WriteWavHeader ⟨[]⟩ (pcm.length : Int) sr ch).2.data ++ pcm)) := by
  by_cases hne : pcm = []
  · subst hne
    simp [SaveAudioToWavFile_nil]
  · cases hw : env.createFileWriterOk path
    · rw [SaveAudioToWavFile_writer_fails env pcm path sr ch w hne hw]
      simp [hne, World.emit]
    · rw [SaveAudioToWavFile_writes env pcm path sr ch w hne hw]
      simp [hne, DeleteArchive, World.emit, World.setFile]

/-- C6: with an empty PCM buffer `SaveAudioToWavFile` returns false,
`SaveAudioAsSoundWaveAsset` returns null and `SaveAudioAndFaceData` returns
false, each leaving the world as it was: no file changes and the trace gains
no engine call (no writer, no temporary file, no package, no JSON file). -/
theorem C6_empty_pcm_rejected {F : Type} (env : Env F) (path assetName basePath : String)
    (seq : FAnimationSequence F) (sr ch : Int) (w : World) :
    SaveAudioToWavFile env [] path sr ch w = (false, w) ∧
    SaveAudioAsSoundWaveAsset env [] assetName sr ch w = (none, w) ∧
    SaveAudioAndFaceData env [] seq basePath sr ch w = (false, w) := by
  refine ⟨SaveAudioToWavFile_nil env path sr ch w, ?_, ?_⟩
  · simp [SaveAudioAsSoundWaveAsset]
  · simp [SaveAudioAndFaceData, SaveAudioToWavFile_nil]

/-! ## Claim on the face-data document -/

/-- C8: for a sequence with at least one frame whose frames have pairwise
distinct blendshape names, the document `SaveFaceDataToJsonFile` serializes
and hands to `SaveStringToFile` has the fields `Duration` and `FrameRate` of
the sequence and a `Frames` array with one element per input frame, in input
order, the i-th holding the `FrameIndex` and the name-to-weight entries of the
i-th frame; a sequence with zero frames is rejected with the world unchanged. -/
theorem C8_face_document {F : Type} (env : Env F) (seq : FAnimationSequence F) (path : String)
    (w : World) (hne : seq.AnimationFrames ≠ [])
    (hnd : ∀ f ∈ seq.AnimationFrames, (f.BlendShapes.map Prod.fst).Nodup) :
    RootObject env seq =
      [("Duration", FJsonValue.number seq.Duration),
       ("FrameRate", FJsonValue.number seq.FrameRate),
       ("Frames", FJsonValue.array (seq.AnimationFrames.map (fun f => FJsonValue.object
          [("FrameIndex", FJsonValue.number (env.int32ToDouble f.FrameIndex)),
           ("BlendShapes", FJsonValue.object
              (f.BlendShapes.map (fun p => (p.1, FJsonValue.number p.2))))])))] ∧
    SaveFaceDataToJsonFile env seq path w =
      SaveStringToFile env (env.Serialize (RootObject env seq)) path w ∧
    SaveFaceDataToJsonFile env { seq with AnimationFrames := [] } path w = (false, w) := by
  refine ⟨?_, ?_, ?_⟩
  · rw [RootObject_eq]
    have : seq.AnimationFrames.map (fun f => FJsonValue.object (FrameObject env f)) =
        seq.AnimationFrames.map (fun f => FJsonValue.object
          [("FrameIndex", FJsonValue.number (env.int32ToDouble f.FrameIndex)),
           ("BlendShapes", FJsonValue.object
              (f.BlendShapes.map (fun p => (p.1, FJsonValue.number p.2))))]) := by
      apply List.map_congr_left
      intro f hf
      rw [FrameObject_eq env f (hnd f hf)]
    rw [this]
  · simp [SaveFaceDataToJsonFile, hne]
  · simp [SaveFaceDataToJsonFile]

/-- C8 at the scenario input: duration 1.0, frame rate 30, one frame with index 0 and `JawOpen` 0.5. -/
theorem C8_face_document_witness :
    RootObject sampleEnv sampleSequence =
      [("Duration", FJsonValue.number 1),
       ("FrameRate", FJsonValue.number 30),
       ("Frames", FJsonValue.array [FJsonValue.object
          [("FrameIndex", FJsonValue.number ((0 : Int) : ℚ)),
           ("BlendShapes", FJsonValue.object [("JawOpen", FJsonValue.number (1 / 2))])]])] ∧
    SaveFaceDataToJsonFile sampleEnv sampleSequence "rec.json" emptyWorld =
      SaveStringToFile sampleEnv (sampleEnv.Serialize (RootObject sampleEnv sampleSequence))
        "rec.json" emptyWorld ∧
    SaveFaceDataToJsonFile sampleEnv { sampleSequence with AnimationFrames := [] } "rec.json"
      emptyWorld = (false, emptyWorld) :=
  C8_face_document sampleEnv sampleSequence "rec.json" emptyWorld (by simp [sampleSequence])
    (by simp [sampleSequence])

/-! ## Claims on the orchestrators -/

/-- C4: with a face sequence of zero frames (and likewise when the JSON
file cannot be saved) `SaveAudioAndFaceData` returns false but makes no
`Delete` call: the audio file written by the first step is still on disk with
its 50 bytes when the call returns. -/
theorem C4_audio_file_left_after_face_failure :
    (SaveAudioAndFaceData sampleEnv samplePCM emptySequence "rec.dat" 16000 1 emptyWorld).1
      = false ∧
    (SaveAudioAndFaceData sampleEnv samplePCM emptySequence "rec.dat" 16000 1 emptyWorld).2.files
      "rec.wav" = some ((WriteWavHeader ⟨[]⟩ 4 16000 1).2.data ++ samplePCM) ∧
    (SaveAudioAndFaceData sampleEnv samplePCM emptySequence "rec.dat" 16000 1 emptyWorld).2.files
      "rec.json" = none ∧
    (SaveAudioAndFaceData sampleEnv samplePCM emptySequence "rec.dat" 16000 1 emptyWorld).2.log =
      [Event.createFileWriter "rec.wav" true,
       Event.closeWriter "rec.wav" ((WriteWavHeader ⟨[]⟩ 4 16000 1).2.data ++ samplePCM)] ∧
    (SaveAudioAndFaceData jsonFailEnv samplePCM sampleSequence "rec.dat" 16000 1 emptyWorld).1
      = false ∧
    (SaveAudioAndFaceData jsonFailEnv samplePCM sampleSequence "rec.dat" 16000 1 emptyWorld).2.files
      "rec.wav" = some ((WriteWavHeader ⟨[]⟩ 4 16000 1).2.data ++ samplePCM) := by
  decide

/-- C7: when the audio step fails, `SaveAudioAndFaceData` returns false,
leaves the world as the audio step left it, with every file as before the
call, and `SaveAudioAndFaceDataAsAssets` returns false, leaves the world as
`SaveAudioAsSoundWaveAsset` left it and does not assign `OutFaceAnimation`; in
both the trace gains no `SaveStringToFile` and no asset registration, so the
face-data step did not run. -/
theorem C7_audio_failure_aborts_pair {F : Type} (env : Env F) (pcm : List UInt8)
    (seq : FAnimationSequence F) (base : String) (sr ch : Int)
    (outSoundWave : Option UObjectRef) (outFaceAnimation : Option (UConvaiFaceAnimationAsset F))
    (w : World) :
    ((SaveAudioToWavFile env pcm (env.ChangeExtension base "wav") sr ch w).1 = false →
      (SaveAudioAndFaceData env pcm seq base sr ch w).1 = false ∧
      (SaveAudioAndFaceData env pcm seq base sr ch w).2 =
        (SaveAudioToWavFile env pcm (env.ChangeExtension base "wav") sr ch w).2 ∧
      (SaveAudioAndFaceData env pcm seq base sr ch w).2.files = w.files ∧
      NoCommitSince w (SaveAudioAndFaceData env pcm seq base sr ch w).2) ∧
    ((SaveAudioAsSoundWaveAsset env pcm (base ++ "_Audio") sr ch w).1 = none →
      (SaveAudioAndFaceDataAsAssets env pcm seq base sr ch outSoundWave outFaceAnimation w).result
        = false ∧
      (SaveAudioAndFaceDataAsAssets env pcm seq base sr ch outSoundWave outFaceAnimation
        w).OutFaceAnimation = outFaceAnimation ∧
      (SaveAudioAndFaceDataAsAssets env pcm seq base sr ch outSoundWave outFaceAnimation w).world =
        (SaveAudioAsSoundWaveAsset env pcm (base ++ "_Audio") sr ch w).2 ∧
      NoCommitSince w
        (SaveAudioAndFaceDataAsAssets env pcm seq base sr ch outSoundWave outFaceAnimation
          w).world) := by
  constructor
  · intro h
    have hw : (SaveAudioAndFaceData env pcm seq base sr ch w) =
        (false, (SaveAudioToWavFile env pcm (env.ChangeExtension base "wav") sr ch w).2) := by
      unfold SaveAudioAndFaceData
      dsimp only
      rcases hs : SaveAudioToWavFile env pcm (env.ChangeExtension base "wav") sr ch w with ⟨b, w1⟩
      rw [hs] at h
      simp only at h
      subst h
      rfl
    rw [hw]
    refine ⟨rfl, rfl, ?_, SaveAudioToWavFile_trace env pcm _ sr ch w⟩
    rcases (SaveAudioToWavFile_fails_iff env pcm _ sr ch w).mp h with he | he
    · subst he
      rw [SaveAudioToWavFile_nil]
    · by_cases hne : pcm = []
      · subst hne
        rw [SaveAudioToWavFile_nil]
      · rw [SaveAudioToWavFile_writer_fails env pcm _ sr ch w hne he]
        rfl
  · intro h
    have hw : SaveAudioAndFaceDataAsAssets env pcm seq base sr ch outSoundWave outFaceAnimation w =
        ⟨false, none, outFaceAnimation,
          (SaveAudioAsSoundWaveAsset env pcm (base ++ "_Audio") sr ch w).2⟩ := by
      unfold SaveAudioAndFaceDataAsAssets
      rcases hs : SaveAudioAsSoundWaveAsset env pcm (base ++ "_Audio") sr ch w with ⟨r, w1⟩
      rw [hs] at h
      simp only at h
      subst h
      rfl
    rw [hw]
    exact ⟨rfl, rfl, rfl, SaveAudioAsSoundWaveAsset_none_trace env pcm _ sr ch w h⟩

/-- C7 where no file writer can be created: both orchestrators return
false, no file exists afterwards and the second out parameter is untouched. -/
theorem C7_audio_failure_aborts_pair_witness :
    (SaveAudioAndFaceData writerFailEnv samplePCM sampleSequence "rec.dat" 16000 1 emptyWorld).1
      = false ∧
    (SaveAudioAndFaceData writerFailEnv samplePCM sampleSequence "rec.dat" 16000 1
      emptyWorld).2.files = emptyWorld.files ∧
    (SaveAudioAndFaceDataAsAssets writerFailEnv samplePCM sampleSequence "rec" 16000 1 none none
      emptyWorld).result = false ∧
    (SaveAudioAndFaceDataAsAssets writerFailEnv samplePCM sampleSequence "rec" 16000 1 none none
      emptyWorld).OutFaceAnimation = none :=
  ⟨((C7_audio_failure_aborts_pair writerFailEnv samplePCM sampleSequence "rec.dat" 16000 1
      none none emptyWorld).1 (by decide)).1,
   ((C7_audio_failure_aborts_pair writerFailEnv samplePCM sampleSequence "rec.dat" 16000 1
      none none emptyWorld).1 (by decide)).2.2.1,
   ((C7_audio_failure_aborts_pair writerFailEnv samplePCM sampleSequence "rec" 16000 1
      none none emptyWorld).2 (by decide)).1,
   ((C7_audio_failure_aborts_pair writerFailEnv samplePCM sampleSequence "rec" 16000 1
      none none emptyWorld).2 (by decide)).2.1⟩

/-- C9: in `SaveAudioAndFaceDataAsAssets`, (i) when the sound wave was
created and `SaveFaceDataAsAsset` returns null, the result is false, both out
parameters are null and the last engine call is `MarkAsGarbage` on the created
sound wave; (ii) the result is true exactly when both out parameters are
non-null on return, whatever they held on entry. -/
theorem C9_asset_rollback_and_handles {F : Type} (env : Env F) (pcm : List UInt8)
    (seq : FAnimationSequence F) (base : String) (sr ch : Int)
    (outSoundWave : Option UObjectRef) (outFaceAnimation : Option (UConvaiFaceAnimationAsset F))
    (w : World) :
    (∀ (sw : UObjectRef) (w1 : World),
      SaveAudioAsSoundWaveAsset env pcm (base ++ "_Audio") sr ch w = (some sw, w1) →
      (SaveFaceDataAsAsset env seq (base ++ "_Face") w1).1 = none →
        (SaveAudioAndFaceDataAsAssets env pcm seq base sr ch outSoundWave outFaceAnimation
          w).result = false ∧
        (SaveAudioAndFaceDataAsAssets env pcm seq base sr ch outSoundWave outFaceAnimation
          w).OutSoundWave = none ∧
        (SaveAudioAndFaceDataAsAssets env pcm seq base sr ch outSoundWave outFaceAnimation
          w).world =
          ((SaveFaceDataAsAsset env seq (base ++ "_Face") w1).2).emit (Event.markAsGarbage sw)) ∧
    ((SaveAudioAndFaceDataAsAssets env pcm seq base sr ch outSoundWave outFaceAnimation w).result
        = true ↔
      ((SaveAudioAndFaceDataAsAssets env pcm seq base sr ch outSoundWave outFaceAnimation
          w).OutSoundWave.isSome = true ∧
        (SaveAudioAndFaceDataAsAssets env pcm seq base sr ch outSoundWave outFaceAnimation
          w).OutFaceAnimation.isSome = true)) := by
  unfold SaveAudioAndFaceDataAsAssets
  rcases hs : SaveAudioAsSoundWaveAsset env pcm (base ++ "_Audio") sr ch w with ⟨r, w1⟩
  cases r with
  | none => simp
  | some sw =>
    dsimp only
    rcases hf : SaveFaceDataAsAsset env seq (base ++ "_Face") w1 with ⟨r2, w2⟩
    cases r2 with
    | none =>
      refine ⟨?_, by simp⟩
      intro sw' w1' heq hnone
      simp only [Prod.mk.injEq, Option.some.injEq] at heq
      obtain ⟨rfl, rfl⟩ := heq
      simp [hf]
    | some fa =>
      refine ⟨?_, by simp⟩
      intro sw' w1' heq hnone
      simp only [Prod.mk.injEq, Option.some.injEq] at heq
      obtain ⟨rfl, rfl⟩ := heq
      simp [hf] at hnone

/-- C9 where the face sequence has no frames: the sound wave `soundWave 0`
is created, then marked as garbage, and both out parameters come back null. -/
theorem C9_asset_rollback_and_handles_witness :
    (SaveAudioAndFaceDataAsAssets sampleEnv samplePCM emptySequence "rec" 16000 1 none none
      emptyWorld).result = false ∧
    (SaveAudioAndFaceDataAsAssets sampleEnv samplePCM emptySequence "rec" 16000 1 none none
      emptyWorld).OutSoundWave = none ∧
    (SaveAudioAndFaceDataAsAssets sampleEnv samplePCM emptySequence "rec" 16000 1 none none
      emptyWorld).world =
      ((SaveFaceDataAsAsset sampleEnv emptySequence ("rec" ++ "_Face")
        (SaveAudioAsSoundWaveAsset sampleEnv samplePCM ("rec" ++ "_Audio") 16000 1
          emptyWorld).2).2).emit (Event.markAsGarbage (UObjectRef.soundWave 0)) :=
  (C9_asset_rollback_and_handles sampleEnv samplePCM emptySequence "rec" 16000 1 none none
    emptyWorld).1 (UObjectRef.soundWave 0)
    (SaveAudioAsSoundWaveAsset sampleEnv samplePCM ("rec" ++ "_Audio") 16000 1 emptyWorld).2
    (Prod.ext (by decide) rfl) (by simp [SaveFaceDataAsAsset, emptySequence])

/-- C10: when `CreatePackage` returns null, `SaveAudioAsSoundWaveAsset`
returns null without a `Delete` call: the temporary file
`Saved/Temp/rec_temp.wav` is still on disk with its 50 bytes, while on the
success path the same file is gone. -/
theorem C10_temp_file_left_after_failure :
    (SaveAudioAsSoundWaveAsset packageFailEnv samplePCM "rec" 16000 1 emptyWorld).1 = none ∧
    TempFilePath packageFailEnv "rec" = "Saved/Temp/rec_temp.wav" ∧
    (SaveAudioAsSoundWaveAsset packageFailEnv samplePCM "rec" 16000 1 emptyWorld).2.files
      "Saved/Temp/rec_temp.wav" = some ((WriteWavHeader ⟨[]⟩ 4 16000 1).2.data ++ samplePCM) ∧
    (SaveAudioAsSoundWaveAsset packageFailEnv samplePCM "rec" 16000 1 emptyWorld).2.log =
      [Event.createFileWriter "Saved/Temp/rec_temp.wav" true,
       Event.closeWriter "Saved/Temp/rec_temp.wav"
         ((WriteWavHeader ⟨[]⟩ 4 16000 1).2.data ++ samplePCM),
       Event.createPackage "/Game/Convai/Recordings/rec" false] ∧
    (SaveAudioAsSoundWaveAsset sampleEnv samplePCM "rec" 16000 1 emptyWorld).1 =
      some (UObjectRef.soundWave 0) ∧
    (SaveAudioAsSoundWaveAsset sampleEnv samplePCM "rec" 16000 1 emptyWorld).2.files
      "Saved/Temp/rec_temp.wav" = none := by
  decide

end Convai
